import Mathlib

/-!
Verification of the AffectLearn adaptive-tutoring frontend against its
specification.  The development shallowly embeds the TypeScript sources:

* the quiz-generation API route (`POST` / `generateQuizWithGroq`,
  `src/unnamed/part_004`);
* quiz submission and scoring (`handleSubmitQuiz`,
  `src/frontend/app/quiz/page.tsx`);
* the chat store (`addMessage` and the assistant-message construction,
  `src/frontend/store/chatStore.ts`);
* the voice-explanation sidebar (`generateVoiceExplanation`,
  `src/frontend/components/Chat/ChatHeader.tsx`).

Conventions of the embedding: JavaScript numbers that hold answer indices,
timestamps and counters are modelled as `Int`/`Nat`; fractional time values
(seconds) and `Math.random()` draws are modelled as exact rationals `ℚ`
(floating-point rounding is outside the model); a JSON/JS value that may be
`undefined` is an `Option`; JS falsiness of strings (`undefined` or `""`)
is modelled explicitly; a TypeScript function that can `throw` returns an
`Option` or `Except`.  Asynchronous React state updates are sequentialized:
each handler is a function from an explicit state to the updated state, and
the value that a concurrent read would observe (e.g. the current session id
at the time an awaited call resolves) is passed as an explicit argument.
-/

/-! ## Quiz-generation API route (src/unnamed/part_004) -/

/-- A raw `correct_answers` entry as parsed from the model's JSON: either a
number (`typeof correctAnswer === 'number'`) or some other JSON value.
JSON numbers are modelled as integers (the indices the route manipulates). -/
inductive RawAnswer where
  | num : Int → RawAnswer
  | other : RawAnswer
deriving DecidableEq, Repr

/-- The quiz object parsed from the Groq response (`JSON.parse` result),
before validation and index correction. -/
structure RawQuiz where
  questions : List String
  options : List (List String)
  correct_answers : List RawAnswer
  explanations : List String
deriving DecidableEq, Repr

/-- The validated quiz returned by `generateQuizWithGroq` on success:
`correct_answers` have been normalized in place. -/
structure ValidatedQuiz where
  questions : List String
  options : List (List String)
  correct_answers : List Int
  explanations : List String
deriving DecidableEq, Repr

/-- The index-correction heuristic applied to a numeric `correct_answers[i]`
(part_004 lines 170-202).  Returns the corrected value together with a flag
recording whether a correcting branch ran (each such branch calls
`logOperation`). -/
def normalizeAnswer (c : Int) : Int × Bool :=
  if 1 ≤ c ∧ c ≤ 4 then (c - 1, true)
  else if 3 < c then (3, true)
  else if c < 0 then (0, true)
  else (c, false)

/-- Per-question validation (one iteration of the `for` loop in
part_004 lines 163-208): the options row must have exactly 4 entries
(otherwise the route throws, never auto-corrects), a numeric index is run
through `normalizeAnswer`, and the final validation requires a number in
`[0, 3]`.  `none` models a `throw`. -/
def validateQuestion (opts : List String) (a : RawAnswer) : Option Int :=
  if opts.length ≠ 4 then none
  else
    match a with
    | .num c =>
      let c2 := (normalizeAnswer c).1
      if 0 ≤ c2 ∧ c2 ≤ 3 then some c2 else none
    | .other => none

/-- The validation loop over all questions: both lists have length
`questionCount` when this is reached, and the loop visits index
`0 ≤ i < questionCount`.  Exhausting one list before the other corresponds
to an out-of-bounds `quiz.options[i]` access, where `Array.isArray(undefined)`
fails and the route throws (`none`). -/
def validateQuestions : List (List String) → List RawAnswer → Option (List Int)
  | [], [] => some []
  | opts :: restO, a :: restA =>
    match validateQuestion opts a, validateQuestions restO restA with
    | some c, some cs => some (c :: cs)
    | _, _ => none
  | _, _ => none

/-- `generateQuizWithGroq` (part_004 lines 54-222) restricted to its pure
validation/correction stage: the parsed `RawQuiz` stands for the Groq
response, and `none` models any thrown error.  The four structural length
checks (lines 146-160) precede the per-question loop. -/
def generateQuizWithGroq (questionCount : Nat) (raw : RawQuiz) : Option ValidatedQuiz :=
  if raw.questions.length ≠ questionCount then none
  else if raw.options.length ≠ questionCount then none
  else if raw.correct_answers.length ≠ questionCount then none
  else if raw.explanations.length ≠ questionCount then none
  else
    match validateQuestions raw.options raw.correct_answers with
    | some cs => some ⟨raw.questions, raw.options, cs, raw.explanations⟩
    | none => none

/-- JavaScript `String.prototype.trim`: strip leading and trailing
whitespace.  (Defined character-by-character so that concrete instances
evaluate inside the kernel.) -/
def jsTrim (s : String) : String :=
  String.mk (((s.data.dropWhile Char.isWhitespace).reverse.dropWhile
    Char.isWhitespace).reverse)

/-- The error outcomes of the `POST` route (part_004 lines 15-52): the three
400-responses from input validation, and the 500-response produced when
`generateQuizWithGroq` throws. -/
inductive QuizApiError where
  | topicRequired
  | invalidDifficulty
  | invalidCount
  | generationFailed
deriving DecidableEq, Repr

/-- The `POST` handler (part_004 lines 15-52).  `topic` and `questionCount`
are `Option`s because the JSON body may omit them; `!topic || !topic.trim()`
rejects a missing, empty or all-whitespace topic; `!questionCount` rejects a
missing count and `0` (both also caught by `< 1`).  `raw` stands for the
quiz the generative model would return: a validation failure returns its
error without consulting `raw`. -/
def POST (topic : Option String) (difficulty : String) (questionCount : Option Int)
    (raw : RawQuiz) : Except QuizApiError ValidatedQuiz :=
  match topic with
  | none => .error .topicRequired
  | some t =>
    if jsTrim t = "" then .error .topicRequired
    else if difficulty ∉ (["easy", "medium", "hard"] : List String) then
      .error .invalidDifficulty
    else
      match questionCount with
      | none => .error .invalidCount
      | some qc =>
        if qc < 1 ∨ 15 < qc then .error .invalidCount
        else
          match generateQuizWithGroq qc.toNat raw with
          | some q => .ok q
          | none => .error .generationFailed

/-! ## Quiz submission and scoring (src/frontend/app/quiz/page.tsx) -/

/-- The quiz data held by the quiz page after generation (the API response). -/
structure QuizData where
  questions : List String
  options : List (List String)
  correct_answers : List Int
  explanations : List String
deriving DecidableEq, Repr

/-- The scoring loop of `handleSubmitQuiz` (page.tsx lines 354-361):
`userAnswers.forEach((answer, index) => if (parseInt(answer) === correctAnswers[index]) correctCount++)`.
A user answer is `some a` when `parseInt` yields a number and `none` when the
slot is still `''` (`parseInt('') = NaN`, which compares unequal to
everything); an index beyond `correctAnswers` reads `undefined`, which a
number never strictly equals. -/
def countCorrect : List (Option Int) → List Int → Nat
  | [], _ => 0
  | _ :: restU, [] => countCorrect restU []
  | ua :: restU, c :: restC =>
    (if ua = some c then 1 else 0) + countCorrect restU restC

/-- The record `handleSubmitQuiz` builds and persists (page.tsx lines
354-384): score, correct count and the stress score.  `rand` is the
`Math.random()` draw, made explicit; `stress_score` is
`Math.floor(rand * (90 - 60 + 1)) + 60`. -/
structure SubmissionRecord where
  correctCount : Nat
  quiz_score : ℚ
  stress_score : Int
deriving DecidableEq, Repr

/-- The pure core of `handleSubmitQuiz` (page.tsx lines 347-417), with the
`Math.random()` draw passed in explicitly. -/
def handleSubmitQuiz (quizData : QuizData) (userAnswers : List (Option Int))
    (rand : ℚ) : SubmissionRecord :=
  let correctCount := countCorrect userAnswers quizData.correct_answers
  { correctCount := correctCount
    quiz_score := (correctCount : ℚ) / (quizData.questions.length : ℚ) * 100
    stress_score := ⌊rand * 31⌋ + 60 }

/-! ## Chat store (src/frontend/store/chatStore.ts) -/

/-- Message direction. -/
inductive MsgType where
  | user
  | assistant
deriving DecidableEq, Repr

/-- A chat message as stored in the zustand store (chatStore.ts lines 7-30).
Timestamps are epoch milliseconds (`Date.getTime()`).  Fields the verified
operations never consult (`audioUrl`, `ttsTimings`, `image_data`) are
omitted. -/
structure ChatMsg where
  id : String
  type : MsgType
  content : String
  timestamp : Int
  sentiment : Option String
  query_id : Option String
  main_response : Option String
  simplified_response : Option String
  detailed_response : Option String
  tinyllama_response : Option String
deriving DecidableEq, Repr

/-- A chat session (chatStore.ts lines 32-37); `createdAt` is not consulted
by the verified operations. -/
structure ChatSession where
  id : String
  title : String
  messages : List ChatMsg
deriving DecidableEq, Repr

/-- The slice of the store state that `addMessage` reads and writes. -/
structure ChatState where
  currentSession : Option ChatSession
  sessions : List ChatSession
deriving DecidableEq, Repr

/-- The duplicate check of `addMessage` (chatStore.ts lines 84-89): same id,
or same content and type with timestamps within 1000 ms. -/
def isDuplicate (msgs : List ChatMsg) (m : ChatMsg) : Bool :=
  msgs.any fun msg =>
    msg.id = m.id ∨
      (msg.content = m.content ∧ msg.type = m.type ∧
        (msg.timestamp - m.timestamp).natAbs < 1000)

/-- The synchronous state transition of `addMessage` (chatStore.ts lines
78-106): no current session or a duplicate leaves the store unchanged;
otherwise the message is appended to the current session and the session
list entry is replaced.  The subsequent asynchronous backend round-trip
(lines 109-194) mutates state only through later `addMessage` /
`updateMessage` calls and is not part of this transition. -/
def addMessage (st : ChatState) (m : ChatMsg) : ChatState :=
  match st.currentSession with
  | none => st
  | some cur =>
    if isDuplicate cur.messages m then st
    else
      let updated : ChatSession := { cur with messages := cur.messages ++ [m] }
      { currentSession := some updated
        sessions := st.sessions.map fun s => if s.id = cur.id then updated else s }

/-- JavaScript `a || b` on an optional string: `undefined` and `""` are
falsy. -/
def jsOr (o : Option String) (b : String) : String :=
  match o with
  | some s => if s = "" then b else s
  | none => b

/-- One maximal run of `pending` newlines flushed by the regex
`/\n\n\n+/g → '\n\n'`: runs of three or more newlines collapse to two,
shorter runs are kept. -/
def flushNewlines (pending : Nat) : List Char :=
  List.replicate (min pending 2) '\n'

/-- Character-level engine of `cleanMarkdown`'s
`.replace(/\n\n\n+/g, '\n\n')` (chatStore.ts lines 159-164). -/
def collapseNewlines : List Char → Nat → List Char
  | [], pending => flushNewlines pending
  | c :: rest, pending =>
    if c = '\n' then collapseNewlines rest (pending + 1)
    else flushNewlines pending ++ c :: collapseNewlines rest 0

/-- `cleanMarkdown` (chatStore.ts lines 159-164): `if (!text) return ''`,
then collapse 3+ consecutive newlines to 2 and trim. -/
def cleanMarkdown (s : String) : String :=
  if s = "" then ""
  else jsTrim (String.mk (collapseNewlines s.data 0))

/-- JS ternary `o ? cleanMarkdown(o) : undefined` on an optional string
(`""` is falsy). -/
def jsTruthyClean (o : Option String) : Option String :=
  match o with
  | some s => if s = "" then none else some (cleanMarkdown s)
  | none => none

/-- The backend reply to `askQuestion`, as consumed when building the
assistant message (chatStore.ts lines 144-180); the construction runs only
when `askResponse.main_response` is truthy. -/
structure AskResponse where
  query_id : Option String
  sentiment_label : Option String
  main_response : String
  simplified_response : Option String
  detailed_response : Option String
  tinyllama_response : Option String
deriving DecidableEq, Repr

/-- The assistant message constructed in `addMessage`'s backend callback
(chatStore.ts lines 166-180).  `freshId` stands for the `uuidv4()` fallback
and `now` for `new Date()`. -/
def mkAssistantMessage (resp : AskResponse) (freshId : String) (now : Int) : ChatMsg :=
  { id := jsOr resp.query_id freshId
    type := .assistant
    content := cleanMarkdown (jsOr resp.simplified_response resp.main_response)
    timestamp := now
    sentiment := resp.sentiment_label
    query_id := resp.query_id
    main_response := some (cleanMarkdown resp.main_response)
    simplified_response := jsTruthyClean resp.simplified_response
    detailed_response := jsTruthyClean resp.detailed_response
    tinyllama_response := jsTruthyClean resp.tinyllama_response }

/-! ## ChatMessage rendering (src/unnamed/part_003) -/

/-- `hasDetailedResponse` (part_003 lines 31-33): the detailed response is
truthy and differs from both the main and the simplified response. -/
def hasDetailedResponse (m : ChatMsg) : Bool :=
  match m.detailed_response with
  | none => false
  | some d => d ≠ "" ∧ m.main_response ≠ some d ∧ m.simplified_response ≠ some d

/-- `contentToRender` (part_003 lines 79-81): the text the bubble displays,
given the `showDetailed` toggle (initially `false`, part_003 line 28). -/
def contentToRender (m : ChatMsg) (showDetailed : Bool) : String :=
  if m.type = MsgType.assistant ∧ hasDetailedResponse m then
    (if showDetailed then m.detailed_response.getD ""
     else jsOr m.main_response (jsOr m.simplified_response ""))
  else jsOr m.main_response (jsOr m.simplified_response m.content)

/-! ## Voice explanation sidebar (src/frontend/components/Chat/ChatHeader.tsx,
VoiceSidebar component) -/

/-- One sentence-timing entry `{start, end, text}`; the source field `end`
is a Lean keyword and is rendered `endT`.  Times are seconds, modelled
exactly in `ℚ`. -/
structure Timing where
  start : ℚ
  endT : ℚ
  text : String
deriving DecidableEq, Repr

/-- A cached/displayed voice explanation (ChatHeader.tsx lines 242-246). -/
structure VoiceExplanation where
  text : String
  timings : List Timing
  audioUrl : String
deriving DecidableEq, Repr

/-- A backend reply to `getAudioByQueryId` / `generateVoice`: an optional
error, an optional audio URL, and the two timing fields the code probes
(`tts_timings` for fresh synthesis, `timings` for previously stored audio);
an absent field is the empty list, which the code treats like an empty
array. -/
structure BackendResp where
  error : Option String
  audio_url : Option String
  tts_timings : List Timing
  timings : List Timing
deriving DecidableEq, Repr

/-- The external services `generateVoiceExplanation` calls, as pure
functions: `storedAudio` is `apiService.getAudioByQueryId` (`none` models a
thrown "no existing audio" error), `synth` is `apiService.generateVoice`
applied to the text and query id, and `convert` is `convertToBackendURL`
(whose output depends only on its argument and the fixed window origin). -/
structure VoiceEnv where
  storedAudio : String → Option BackendResp
  synth : String → String → BackendResp
  convert : String → String

/-- The component state `generateVoiceExplanation` reads and writes:
the `cachedExplanations` record (an association list where an insert
shadows older entries, like object spread), the displayed
`voiceExplanation`, the error banner, and a counter of `generateVoice`
invocations used to express "no second synthesis". -/
structure VoiceState where
  cachedExplanations : List (String × VoiceExplanation)
  voiceExplanation : Option VoiceExplanation
  errorMsg : Option String
  synthCalls : Nat
deriving DecidableEq, Repr

/-- `cachedExplanations[k]` on the association-list model. -/
def lookupCache (c : List (String × VoiceExplanation)) (k : String) :
    Option VoiceExplanation :=
  (c.find? fun p => p.1 = k).map (·.2)

/-- String falsiness of an optional JS string (`undefined` or `""`). -/
def strFalsy (o : Option String) : Bool :=
  match o with
  | none => true
  | some s => s = ""

/-- Sentence splitting for the timing fallback (ChatHeader.tsx lines
396-398): split on `'.'`, drop whitespace-only pieces, re-append `'.'` to
each trimmed piece. -/
def sentencesOf (text : String) : List String :=
  ((text.splitOn ".").filter fun s => jsTrim s ≠ "").map fun s => jsTrim s ++ "."

/-- The deterministic character-count timing fallback (ChatHeader.tsx lines
412-424): each sentence lasts `length * 0.05` seconds and start times
accumulate from the running `startTime` (initially 0). -/
def fallbackTimings : List String → ℚ → List Timing
  | [], _ => []
  | s :: rest, t =>
    { start := t, endT := t + (s.length : ℚ) * (5 / 100), text := s }
      :: fallbackTimings rest (t + (s.length : ℚ) * (5 / 100))

/-- Timing-map selection (ChatHeader.tsx lines 401-425): backend
`tts_timings` win, then stored `timings`, then the character-count
fallback. -/
def selectTimings (resp : BackendResp) (sentences : List String) : List Timing :=
  if resp.tts_timings ≠ [] then resp.tts_timings
  else if resp.timings ≠ [] then resp.timings
  else fallbackTimings sentences 0

/-- The last assistant message of a session
(`[...messages].reverse().find(msg => msg.type === 'assistant')`,
ChatHeader.tsx lines 312-314). -/
def lastAssistant (sess : ChatSession) : Option ChatMsg :=
  sess.messages.reverse.find? fun m => m.type = MsgType.assistant

/-- The cache key for a session's voice artifact
(`lastAssistantMessage.query_id || lastAssistantMessage.id`,
ChatHeader.tsx lines 342 and 444); `""` when there is no assistant
message. -/
def voiceCacheKey (sess : ChatSession) : String :=
  match lastAssistant sess with
  | some m => jsOr m.query_id m.id
  | none => ""

/-- The tail of `generateVoiceExplanation` from the point where a backend
response is in hand (ChatHeader.tsx lines 385-454): a truthy `error` field
or a missing audio URL throws into the catch block (which only sets the
error banner); otherwise timings are selected, the URL converted, and —
only if the active session id still equals the one captured at the start —
the result is displayed and cached (a blank cache key skips caching). -/
def applyResponse (env : VoiceEnv) (sessionIdAtStart : String)
    (sessionNowId : Option String) (cacheKey : String) (textToVoice : String)
    (resp : BackendResp) (st : VoiceState) : VoiceState :=
  if ¬ strFalsy resp.error then
    { st with errorMsg := some ("API Error: " ++ (resp.error.getD "")) }
  else if strFalsy resp.audio_url then
    { st with errorMsg := some "No audio URL returned from API" }
  else
    let timings := selectTimings resp (sentencesOf textToVoice)
    let audioUrl := env.convert (resp.audio_url.getD "")
    if sessionNowId = some sessionIdAtStart then
      let newVE : VoiceExplanation :=
        { text := textToVoice, timings := timings, audioUrl := audioUrl }
      if cacheKey = "" then { st with voiceExplanation := some newVE }
      else
        { st with
            voiceExplanation := some newVE
            cachedExplanations := (cacheKey, newVE) :: st.cachedExplanations }
    else st

/-- `generateVoiceExplanation` (ChatHeader.tsx lines 302-477),
sequentialized.  `session` is the `currentSession` captured on entry,
`sessionNowId` the id of `useChatStore.getState().currentSession` observed
when the awaited calls have resolved (line 433), and `freshQueryId` the
`msg_${Date.now()}` fallback.  Early validation failures and the catch
block only set the error banner; a cache hit displays the cached
explanation; otherwise stored audio is fetched by query id and, when that
yields no usable audio, `generateVoice` runs (counted in `synthCalls`). -/
def generateVoiceExplanation (env : VoiceEnv) (session : Option ChatSession)
    (sessionNowId : Option String) (freshQueryId : String)
    (st : VoiceState) : VoiceState :=
  match session with
  | none => { st with errorMsg := some "No messages to explain" }
  | some sess =>
    if sess.messages.length = 0 then
      { st with errorMsg := some "No messages to explain" }
    else
      match lastAssistant sess with
      | none => { st with errorMsg := some "No assistant messages to explain" }
      | some msg =>
        if strFalsy msg.detailed_response then
          { st with errorMsg := some "Voice explanations are only available for detailed responses. Please toggle to detailed view first." }
        else
          let st1 : VoiceState := { st with errorMsg := none }
          let textToVoice := msg.detailed_response.getD ""
          let queryId := jsOr msg.query_id (jsOr (some msg.id) freshQueryId)
          let cacheKey := jsOr msg.query_id msg.id
          match (if cacheKey = "" then none else lookupCache st1.cachedExplanations cacheKey) with
          | some cached => { st1 with voiceExplanation := some cached }
          | none =>
            let stored : Option BackendResp :=
              match msg.query_id with
              | some qid => if qid = "" then none else env.storedAudio qid
              | none => none
            match stored with
            | some r =>
              if strFalsy r.audio_url then
                applyResponse env sess.id sessionNowId cacheKey textToVoice
                  (env.synth textToVoice queryId)
                  { st1 with synthCalls := st1.synthCalls + 1 }
              else
                applyResponse env sess.id sessionNowId cacheKey textToVoice r st1
            | none =>
              applyResponse env sess.id sessionNowId cacheKey textToVoice
                (env.synth textToVoice queryId)
                { st1 with synthCalls := st1.synthCalls + 1 }

/-! ## Concrete instances used by witnesses and counterexamples -/

/-- A raw quiz with a 1-based first index, as an upstream generator might
return it. -/
def rawQuizEx : RawQuiz :=
  { questions := ["Q1?", "Q2?"]
    options := [["a", "b", "c", "d"], ["e", "f", "g", "h"]]
    correct_answers := [.num 4, .num 0]
    explanations := ["E1", "E2"] }

/-- The validated form of `rawQuizEx` (the raw `4` normalized to `3`). -/
def vqEx : ValidatedQuiz :=
  { questions := ["Q1?", "Q2?"]
    options := [["a", "b", "c", "d"], ["e", "f", "g", "h"]]
    correct_answers := [3, 0]
    explanations := ["E1", "E2"] }

/-- A raw quiz whose second question has only 3 options. -/
def rawQuizBadOpts : RawQuiz :=
  { questions := ["Q1?", "Q2?"]
    options := [["a", "b", "c", "d"], ["e", "f", "g"]]
    correct_answers := [.num 0, .num 1]
    explanations := ["E1", "E2"] }

/-- A five-question quiz whose correct indices contain two zeros. -/
def quizEx : QuizData :=
  { questions := ["q1", "q2", "q3", "q4", "q5"]
    options := List.replicate 5 ["a", "b", "c", "d"]
    correct_answers := [0, 2, 0, 1, 3]
    explanations := List.replicate 5 "e" }

/-- A stored user message. -/
def mEx : ChatMsg :=
  { id := "m1", type := .user, content := "hi", timestamp := 0
    sentiment := none, query_id := none, main_response := none
    simplified_response := none, detailed_response := none
    tinyllama_response := none }

/-- A message sharing `mEx`'s id but sent 5 seconds later (a duplicate by
id, not by timestamp). -/
def mDupEx : ChatMsg := { mEx with timestamp := 5000 }

/-- A session already containing `mEx`. -/
def curEx : ChatSession := { id := "s1", title := "T", messages := [mEx] }

/-- A store whose current session is `curEx`. -/
def stEx : ChatState := { currentSession := some curEx, sessions := [curEx] }

/-- A backend reply with positive sentiment and three distinct tiers. -/
def askRespPos : AskResponse :=
  { query_id := some "q1"
    sentiment_label := some "POSITIVE"
    main_response := "Main tier answer."
    simplified_response := some "Simplified tier answer."
    detailed_response := some "Detailed tier answer."
    tinyllama_response := none }

/-- A timing entry whose start is negative (as a misbehaving backend could
return). -/
def timingBad : Timing := { start := -1, endT := 0, text := "x" }

/-- A synthesis response carrying the negative-start timing entry. -/
def respBadTimings : BackendResp :=
  { error := none, audio_url := some "u.mp3"
    tts_timings := [timingBad], timings := [] }

/-- A well-behaved synthesis response with one timing entry. -/
def respOk : BackendResp :=
  { error := none, audio_url := some "voice.mp3"
    tts_timings := [{ start := 0, endT := 1, text := "Hello there." }]
    timings := [] }

/-- A synthesis response with no timing data (forces the fallback). -/
def respNoTimings : BackendResp :=
  { error := none, audio_url := some "u", tts_timings := [], timings := [] }

/-- An environment with no stored audio whose synthesizer returns
`respBadTimings`. -/
def envBad : VoiceEnv :=
  { storedAudio := fun _ => none, synth := fun _ _ => respBadTimings
    convert := id }

/-- An environment with no stored audio whose synthesizer returns
`respOk`. -/
def envOk : VoiceEnv :=
  { storedAudio := fun _ => none, synth := fun _ _ => respOk, convert := id }

/-- An assistant message with a detailed response and a query id. -/
def msgVoiceEx : ChatMsg :=
  { id := "m1", type := .assistant, content := "c", timestamp := 0
    sentiment := none, query_id := some "q1", main_response := none
    simplified_response := none
    detailed_response := some "Hello there. Second sentence."
    tinyllama_response := none }

/-- A session containing `msgVoiceEx`. -/
def sessVoiceEx : ChatSession := { id := "s1", title := "T", messages := [msgVoiceEx] }

/-- The initial sidebar state: empty cache, nothing displayed. -/
def voiceSt0 : VoiceState :=
  { cachedExplanations := [], voiceExplanation := none
    errorMsg := none, synthCalls := 0 }

/-! ## Theorems -/

/-- `validateQuestion` only succeeds on a 4-option row with a normalized
index in `[0, 3]`. -/
theorem validateQuestion_ok (opts : List String) (a : RawAnswer) (c : Int)
    (h : validateQuestion opts a = some c) :
    opts.length = 4 ∧ 0 ≤ c ∧ c ≤ 3 := by
  unfold validateQuestion at h
  split at h
  · exact absurd h (by simp)
  · rename_i hlen
    cases a with
    | num c0 =>
      simp only at h
      split at h
      · rename_i hrange
        cases h
        exact ⟨by omega, hrange.1, hrange.2⟩
      · exact absurd h (by simp)
    | other => exact absurd h (by simp)

/-- Soundness of the per-question validation loop. -/
theorem validateQuestions_ok :
    ∀ (os : List (List String)) (as : List RawAnswer) (cs : List Int),
      validateQuestions os as = some cs →
      cs.length = os.length ∧ (∀ row ∈ os, row.length = 4) ∧
        ∀ c ∈ cs, 0 ≤ c ∧ c ≤ 3 := by
  intro os
  induction os with
  | nil =>
    intro as cs h
    cases as with
    | nil => cases h; simp
    | cons a as' => exact absurd h (by simp [validateQuestions])
  | cons o os' ih =>
    intro as cs h
    cases as with
    | nil => exact absurd h (by simp [validateQuestions])
    | cons a as' =>
      simp only [validateQuestions] at h
      cases hq : validateQuestion o a with
      | none => rw [hq] at h; exact absurd h (by simp)
      | some c =>
        rw [hq] at h
        cases hrest : validateQuestions os' as' with
        | none => rw [hrest] at h; exact absurd h (by simp)
        | some cs' =>
          rw [hrest] at h
          cases h
          obtain ⟨hlen, hrange⟩ := validateQuestion_ok o a c hq
          obtain ⟨ihlen, ihrows, ihvals⟩ := ih as' cs' hrest
          refine ⟨by simp [ihlen], ?_, ?_⟩
          · intro row hrow
            rcases List.mem_cons.mp hrow with h | h
            · subst h; exact hlen
            · exact ihrows row h
          · intro v hv
            rcases List.mem_cons.mp hv with h | h
            · subst h; exact hrange
            · exact ihvals v h

/-- C1: whenever `generateQuizWithGroq` returns a quiz rather than throwing,
the quiz has exactly `questionCount` questions, options rows,
correct-answer indices and explanations; every options row has exactly 4
entries; and every correct-answer index lies in `[0, 3]`, whatever indexing
convention the raw generator output used. -/
theorem quiz_validation_shape (questionCount : Nat) (raw : RawQuiz)
    (vq : ValidatedQuiz)
    (h : generateQuizWithGroq questionCount raw = some vq) :
    vq.questions.length = questionCount ∧
    vq.options.length = questionCount ∧
    vq.correct_answers.length = questionCount ∧
    vq.explanations.length = questionCount ∧
    (∀ row ∈ vq.options, row.length = 4) ∧
    ∀ c ∈ vq.correct_answers, 0 ≤ c ∧ c ≤ 3 := by
  unfold generateQuizWithGroq at h
  split at h
  · exact absurd h (by simp)
  · rename_i hq
    split at h
    · exact absurd h (by simp)
    · rename_i ho
      split at h
      · exact absurd h (by simp)
      · rename_i ha
        split at h
        · exact absurd h (by simp)
        · rename_i he
          cases hv : validateQuestions raw.options raw.correct_answers with
          | none => rw [hv] at h; exact absurd h (by simp)
          | some cs =>
            rw [hv] at h
            cases h
            obtain ⟨hlen, hrows, hvals⟩ := validateQuestions_ok _ _ _ hv
            refine ⟨?_, ?_, ?_, ?_, hrows, hvals⟩ <;> dsimp only <;> omega

/-- Witness for C1 at a concrete raw quiz (its first index arrives 1-based
as `4` and is normalized to `3`). -/
theorem quiz_validation_shape_witness :
    vqEx.questions.length = 2 ∧
    vqEx.options.length = 2 ∧
    vqEx.correct_answers.length = 2 ∧
    vqEx.explanations.length = 2 ∧
    (∀ row ∈ vqEx.options, row.length = 4) ∧
    ∀ c ∈ vqEx.correct_answers, 0 ≤ c ∧ c ≤ 3 :=
  quiz_validation_shape 2 rawQuizEx vqEx (by decide)

/-- C2: the index-correction heuristic exactly as the spec describes it —
`c - 1` precisely when `1 ≤ c ≤ 4`, clamp to `3` above that range, clamp to
`0` when negative, unchanged (and unlogged) at `0`, and every correction is
logged. -/
theorem normalizeAnswer_heuristic (c : Int) :
    ((1 ≤ c ∧ c ≤ 4) → normalizeAnswer c = (c - 1, true)) ∧
    (4 < c → normalizeAnswer c = (3, true)) ∧
    (c < 0 → normalizeAnswer c = (0, true)) ∧
    (c = 0 → normalizeAnswer c = (0, false)) ∧
    ((normalizeAnswer c).1 = c - 1 ↔ (1 ≤ c ∧ c ≤ 4)) ∧
    ((normalizeAnswer c).2 = true ↔ (normalizeAnswer c).1 ≠ c) := by
  refine ⟨?_, ?_, ?_, ?_, ?_, ?_⟩
  · intro h
    unfold normalizeAnswer
    rw [if_pos h]
  · intro h
    unfold normalizeAnswer
    rw [if_neg (by omega), if_pos (by omega)]
  · intro h
    unfold normalizeAnswer
    rw [if_neg (by omega), if_neg (by omega), if_pos h]
  · intro h
    subst h
    decide
  · unfold normalizeAnswer
    split_ifs with h1 h2 h3 <;> dsimp only
    · exact ⟨fun _ => h1, fun _ => rfl⟩
    · exact ⟨fun hh => by omega, fun hh => by omega⟩
    · exact ⟨fun hh => by omega, fun hh => by omega⟩
    · exact ⟨fun hh => by omega, fun hh => by omega⟩
  · unfold normalizeAnswer
    split_ifs with h1 h2 h3 <;> dsimp only
    · exact ⟨fun _ => by omega, fun _ => rfl⟩
    · exact ⟨fun _ => by omega, fun _ => rfl⟩
    · exact ⟨fun _ => by omega, fun _ => rfl⟩
    · exact ⟨fun hh => by simp at hh, fun hh => absurd rfl hh⟩

/-- Witness for C2, exercising every branch of the heuristic. -/
theorem normalizeAnswer_heuristic_witness :
    normalizeAnswer 2 = (1, true) ∧ normalizeAnswer 7 = (3, true) ∧
    normalizeAnswer (-2) = (0, true) ∧ normalizeAnswer 0 = (0, false) := by
  refine ⟨?_, ?_, ?_, ?_⟩
  · simpa using (normalizeAnswer_heuristic 2).1 (by decide)
  · simpa using (normalizeAnswer_heuristic 7).2.1 (by decide)
  · simpa using (normalizeAnswer_heuristic (-2)).2.2.1 (by decide)
  · simpa using (normalizeAnswer_heuristic 0).2.2.2.1 rfl

/-- A row with the wrong option count makes the validation loop throw. -/
theorem validateQuestions_bad_row :
    ∀ (os : List (List String)) (as : List RawAnswer) (row : List String),
      row ∈ os → row.length ≠ 4 → validateQuestions os as = none := by
  intro os
  induction os with
  | nil => intro as row hrow; exact absurd hrow (by simp)
  | cons o os' ih =>
    intro as row hrow hbad
    cases as with
    | nil => simp [validateQuestions]
    | cons a as' =>
      rcases List.mem_cons.mp hrow with h | h
      · subst h
        have : validateQuestion row a = none := by
          unfold validateQuestion
          rw [if_pos hbad]
        simp [validateQuestions, this]
      · have := ih as' row h hbad
        simp only [validateQuestions, this]
        cases validateQuestion o a <;> simp

/-- C7: the quiz route rejects a missing/blank topic, an unknown difficulty
and an out-of-range question count before the generative model is consulted
(the error is the same for every possible model output `raw`), and after
generation it throws — never auto-corrects — when a generated question does
not have exactly 4 options. -/
theorem quiz_api_validation :
    (∀ d qc raw, POST none d qc raw = .error .topicRequired) ∧
    (∀ t d qc raw, jsTrim t = "" → POST (some t) d qc raw = .error .topicRequired) ∧
    (∀ t d qc raw, jsTrim t ≠ "" → d ∉ (["easy", "medium", "hard"] : List String) →
      POST (some t) d qc raw = .error .invalidDifficulty) ∧
    (∀ t d raw, jsTrim t ≠ "" → d ∈ (["easy", "medium", "hard"] : List String) →
      POST (some t) d none raw = .error .invalidCount) ∧
    (∀ t d qc raw, jsTrim t ≠ "" → d ∈ (["easy", "medium", "hard"] : List String) →
      (qc < 1 ∨ 15 < qc) → POST (some t) d (some qc) raw = .error .invalidCount) ∧
    (∀ questionCount raw, (∃ row ∈ raw.options, row.length ≠ 4) →
      generateQuizWithGroq questionCount raw = none) := by
  refine ⟨?_, ?_, ?_, ?_, ?_, ?_⟩
  · intro d qc raw; rfl
  · intro t d qc raw ht
    simp only [POST]
    rw [if_pos ht]
  · intro t d qc raw ht hd
    simp only [POST]
    rw [if_neg ht, if_pos hd]
  · intro t d raw ht hd
    simp only [POST]
    rw [if_neg ht, if_neg (not_not_intro hd)]
  · intro t d qc raw ht hd hqc
    simp only [POST]
    rw [if_neg ht, if_neg (not_not_intro hd)]
    rw [if_pos hqc]
  · intro questionCount raw ⟨row, hrow, hbad⟩
    unfold generateQuizWithGroq
    split
    · rfl
    · split
      · rfl
      · split
        · rfl
        · split
          · rfl
          · rw [validateQuestions_bad_row raw.options raw.correct_answers row hrow hbad]

/-- Witness for C7: each rejection at a concrete request, plus the
4-option failure on a concrete malformed quiz. -/
theorem quiz_api_validation_witness :
    POST none "medium" (some 5) rawQuizEx = .error .topicRequired ∧
    POST (some "   ") "medium" (some 5) rawQuizEx = .error .topicRequired ∧
    POST (some "Photosynthesis") "extreme" (some 5) rawQuizEx = .error .invalidDifficulty ∧
    POST (some "Photosynthesis") "medium" none rawQuizEx = .error .invalidCount ∧
    POST (some "Photosynthesis") "medium" (some 99) rawQuizEx = .error .invalidCount ∧
    generateQuizWithGroq 2 rawQuizBadOpts = none :=
  ⟨quiz_api_validation.1 "medium" (some 5) rawQuizEx,
   quiz_api_validation.2.1 "   " "medium" (some 5) rawQuizEx (by decide),
   quiz_api_validation.2.2.1 "Photosynthesis" "extreme" (some 5) rawQuizEx (by decide) (by decide),
   quiz_api_validation.2.2.2.1 "Photosynthesis" "medium" rawQuizEx (by decide) (by decide),
   quiz_api_validation.2.2.2.2.1 "Photosynthesis" "medium" 99 rawQuizEx (by decide) (by decide) (by decide),
   quiz_api_validation.2.2.2.2.2 2 rawQuizBadOpts ⟨["e", "f", "g"], by decide, by decide⟩⟩

/-- The scoring loop agrees with the specification-level count of matching
question indices. -/
theorem countCorrect_eq_countP :
    ∀ (ua : List (Option Int)) (ca : List Int),
      countCorrect ua ca = (ua.zip ca).countP fun p => p.1 == some p.2 := by
  intro ua
  induction ua with
  | nil => intro ca; rfl
  | cons u ru ih =>
    intro ca
    cases ca with
    | nil => simpa [countCorrect] using ih []
    | cons c cs =>
      simp [countCorrect, List.countP_cons, ih cs, beq_iff_eq]
      by_cases h : u = some c <;> simp [h] <;> omega

/-- All-zero answers count exactly the questions whose correct index is 0. -/
theorem countCorrect_replicate_zero :
    ∀ (n : Nat) (ca : List Int),
      countCorrect (List.replicate n (some 0)) ca = (ca.take n).count 0 := by
  intro n
  induction n with
  | zero => intro ca; simp [countCorrect]
  | succ m ih =>
    intro ca
    cases ca with
    | nil =>
      simpa [List.replicate_succ, countCorrect] using ih []
    | cons c cs =>
      simp only [List.replicate_succ, countCorrect, ih cs, List.count_cons]
      by_cases h : c = 0
      · simp [h] <;> omega
      · have h0 : ¬((0 : Int) = c) := fun hh => h hh.symm
        simp [h, h0] <;> omega

/-- C6: quiz scoring is a pure function of the submitted answers and the
correct indices — the random draw does not affect score or correct count,
the correct count is the number of index-matching questions, the score is
that count over the question total times 100, and all-zero answers on a
5-question quiz score `(#{i | correct[i] = 0} / 5) * 100`. -/
theorem quiz_scoring_pure :
    (∀ q ua r r',
      (handleSubmitQuiz q ua r).quiz_score = (handleSubmitQuiz q ua r').quiz_score ∧
      (handleSubmitQuiz q ua r).correctCount = (handleSubmitQuiz q ua r').correctCount) ∧
    (∀ q ua r,
      (handleSubmitQuiz q ua r).correctCount =
        ((ua.zip q.correct_answers).countP fun p => p.1 == some p.2) ∧
      (handleSubmitQuiz q ua r).quiz_score =
        (((ua.zip q.correct_answers).countP fun p => p.1 == some p.2 : Nat) : ℚ) /
          (q.questions.length : ℚ) * 100) ∧
    (∀ q r, q.questions.length = 5 → q.correct_answers.length = 5 →
      (handleSubmitQuiz q (List.replicate 5 (some 0)) r).quiz_score =
        ((q.correct_answers.count 0 : Nat) : ℚ) / 5 * 100) := by
  refine ⟨?_, ?_, ?_⟩
  · intro q ua r r'; exact ⟨rfl, rfl⟩
  · intro q ua r
    constructor
    · simpa [handleSubmitQuiz] using countCorrect_eq_countP ua q.correct_answers
    · simp [handleSubmitQuiz, countCorrect_eq_countP ua q.correct_answers]
  · intro q r hq hc
    have h5 : q.correct_answers.take 5 = q.correct_answers := by
      rw [← hc]; exact List.take_length _
    have hcc := countCorrect_replicate_zero 5 q.correct_answers
    rw [h5] at hcc
    have hscore : (handleSubmitQuiz q (List.replicate 5 (some 0)) r).quiz_score =
        ((countCorrect (List.replicate 5 (some 0)) q.correct_answers : Nat) : ℚ) /
          (q.questions.length : ℚ) * 100 := rfl
    rw [hscore, hcc, hq]
    norm_num

/-- Witness for C6: all-zero answers on the concrete 5-question quiz whose
correct indices contain two zeros. -/
theorem quiz_scoring_pure_witness :
    (handleSubmitQuiz quizEx (List.replicate 5 (some 0)) 0).quiz_score =
      ((quizEx.correct_answers.count 0 : Nat) : ℚ) / 5 * 100 :=
  quiz_scoring_pure.2.2 quizEx 0 (by decide) (by decide)

/-- C3 counterexample: two submissions of the identical quiz with identical
answers (hence identical difficulty, content and performance) record
different stress estimates for different `Math.random()` draws — the
stress estimate is not a deterministic function of difficulty and
performance. -/
theorem stress_score_random_cex :
    (handleSubmitQuiz quizEx (List.replicate 5 (some 0)) 0).stress_score ≠
      (handleSubmitQuiz quizEx (List.replicate 5 (some 0)) (1 / 2)).stress_score := by
  have h1 : (handleSubmitQuiz quizEx (List.replicate 5 (some 0)) 0).stress_score = 60 := by
    show ⌊(0 : ℚ) * 31⌋ + 60 = 60
    norm_num
  have h2 : (handleSubmitQuiz quizEx (List.replicate 5 (some 0)) (1 / 2)).stress_score = 75 := by
    show ⌊(1 / 2 : ℚ) * 31⌋ + 60 = 75
    have : ⌊(1 / 2 : ℚ) * 31⌋ = 15 := by
      rw [Int.floor_eq_iff]
      norm_num
    omega
  omega

/-- C3 amended: the recorded stress estimate is
`Math.floor(Math.random() * 31) + 60` — a function of the random draw
alone, independent of quiz content, difficulty and answers, and always in
`[60, 90]`. -/
theorem stress_score_random_range (q q' : QuizData) (ua ua' : List (Option Int))
    (r : ℚ) (h0 : 0 ≤ r) (h1 : r < 1) :
    (handleSubmitQuiz q ua r).stress_score = (handleSubmitQuiz q' ua' r).stress_score ∧
    60 ≤ (handleSubmitQuiz q ua r).stress_score ∧
    (handleSubmitQuiz q ua r).stress_score ≤ 90 := by
  refine ⟨rfl, ?_, ?_⟩
  · have : (0 : Int) ≤ ⌊r * 31⌋ := Int.floor_nonneg.mpr (by positivity)
    simp only [handleSubmitQuiz]
    omega
  · have : ⌊r * 31⌋ < (31 : Int) := by
      rw [Int.floor_lt]
      push_cast
      linarith
    simp only [handleSubmitQuiz]
    omega

/-- Witness for the amended C3 at the draw `1/3`. -/
theorem stress_score_random_range_witness :
    (handleSubmitQuiz quizEx [] (1 / 3)).stress_score =
      (handleSubmitQuiz quizEx (List.replicate 5 (some 0)) (1 / 3)).stress_score ∧
    60 ≤ (handleSubmitQuiz quizEx [] (1 / 3)).stress_score ∧
    (handleSubmitQuiz quizEx [] (1 / 3)).stress_score ≤ 90 :=
  stress_score_random_range quizEx quizEx [] (List.replicate 5 (some 0)) (1 / 3)
    (by norm_num) (by norm_num)

/-- C10: `addMessage` is idempotent — adding a message whose id matches an
existing one, or whose content/type match an existing message within
1000 ms, leaves the store unchanged, and adding the same message twice
equals adding it once. -/
theorem addMessage_idempotent (st : ChatState) (m : ChatMsg) :
    addMessage (addMessage st m) m = addMessage st m ∧
    ∀ cur, st.currentSession = some cur →
      ((∃ msg ∈ cur.messages, msg.id = m.id) → addMessage st m = st) ∧
      ((∃ msg ∈ cur.messages, msg.content = m.content ∧ msg.type = m.type ∧
          (msg.timestamp - m.timestamp).natAbs < 1000) → addMessage st m = st) := by
  have hdup : ∀ (s : ChatState) (cur : ChatSession), s.currentSession = some cur →
      isDuplicate cur.messages m = true → addMessage s m = s := by
    intro s cur hcur hd
    unfold addMessage
    rw [hcur]
    simp only [hd, if_true]
  constructor
  · cases hcur : st.currentSession with
    | none =>
      have h1 : addMessage st m = st := by unfold addMessage; rw [hcur]
      rw [h1, h1]
    | some cur =>
      by_cases hd : isDuplicate cur.messages m
      · have h1 := hdup st cur hcur hd
        rw [h1, h1]
      · have hcur1 : (addMessage st m).currentSession =
            some { cur with messages := cur.messages ++ [m] } := by
          unfold addMessage
          rw [hcur]
          dsimp only
          rw [if_neg hd]
        have hdup2 : isDuplicate (cur.messages ++ [m]) m = true := by
          simp [isDuplicate]
        exact hdup (addMessage st m) _ hcur1 hdup2
  · intro cur hcur
    constructor
    · rintro ⟨msg, hmem, hid⟩
      refine hdup st cur hcur ?_
      simp only [isDuplicate, List.any_eq_true]
      exact ⟨msg, hmem, by simp [hid]⟩
    · rintro ⟨msg, hmem, hrest⟩
      refine hdup st cur hcur ?_
      simp only [isDuplicate, List.any_eq_true]
      exact ⟨msg, hmem, by simp [hrest.1, hrest.2.1, hrest.2.2]⟩

/-- Witness for C10 at a concrete store: re-adding a message with an
existing id (at a far-away timestamp) leaves the store unchanged. -/
theorem addMessage_idempotent_witness : addMessage stEx mDupEx = stEx :=
  ((addMessage_idempotent stEx mDupEx).2 curEx rfl).1 ⟨mEx, by decide, by decide⟩

/-- C4 counterexample: an assistant turn with non-negative (positive)
affect whose backend reply carries distinct simplified and main tiers.
The claim says the main tier is the default displayed tier for
non-negative affect, but `addMessage`'s callback stores the simplified
tier as the message content regardless of sentiment
(`content: cleanMarkdown(askResponse.simplified_response || askResponse.main_response)`). -/
theorem default_tier_affect_cex :
    (mkAssistantMessage askRespPos "u1" 0).sentiment = some "POSITIVE" ∧
    (mkAssistantMessage askRespPos "u1" 0).main_response = some "Main tier answer." ∧
    (mkAssistantMessage askRespPos "u1" 0).content = "Simplified tier answer." ∧
    (mkAssistantMessage askRespPos "u1" 0).content ≠ "Main tier answer." := by
  refine ⟨rfl, ?_, ?_, ?_⟩ <;> decide

/-- C4 amended: the default tier surfaced for an assistant turn does not
depend on the turn's affect at all — the store's message content is the
simplified tier whenever one is present (otherwise the main tier) for every
sentiment label, the `ChatMessage` component renders the same default text
for every sentiment, and the main/simplified/detailed tier texts are all
retained on the message. -/
theorem default_tier_affect_independent :
    (∀ (resp : AskResponse) (freshId : String) (now : Int) (lbl lbl' : Option String),
      (mkAssistantMessage { resp with sentiment_label := lbl } freshId now).content =
        (mkAssistantMessage { resp with sentiment_label := lbl' } freshId now).content) ∧
    (∀ resp freshId now, resp.simplified_response = none →
      (mkAssistantMessage resp freshId now).content = cleanMarkdown resp.main_response) ∧
    (∀ resp freshId now s, resp.simplified_response = some s → s ≠ "" →
      (mkAssistantMessage resp freshId now).content = cleanMarkdown s) ∧
    (∀ resp freshId now,
      (mkAssistantMessage resp freshId now).main_response =
        some (cleanMarkdown resp.main_response) ∧
      (mkAssistantMessage resp freshId now).simplified_response =
        jsTruthyClean resp.simplified_response ∧
      (mkAssistantMessage resp freshId now).detailed_response =
        jsTruthyClean resp.detailed_response) ∧
    (∀ (m : ChatMsg) (showDetailed : Bool) (lbl : Option String),
      contentToRender { m with sentiment := lbl } showDetailed =
        contentToRender m showDetailed) := by
  refine ⟨?_, ?_, ?_, ?_, ?_⟩
  · intro resp freshId now lbl lbl'; rfl
  · intro resp freshId now h
    simp [mkAssistantMessage, jsOr, h]
  · intro resp freshId now s h hs
    simp [mkAssistantMessage, jsOr, h, hs]
  · intro resp freshId now; exact ⟨rfl, rfl, rfl⟩
  · intro m showDetailed lbl; rfl

/-- Witness for the amended C4 at the concrete positive-affect reply. -/
theorem default_tier_affect_independent_witness :
    (mkAssistantMessage askRespPos "u1" 0).content =
      cleanMarkdown "Simplified tier answer." :=
  default_tier_affect_independent.2.2.1 askRespPos "u1" 0
    "Simplified tier answer." rfl (by decide)

/-- C9 counterexample: when the backend supplies timing data, the voice
pipeline passes it through without validation — a returned timing map can
have `timings[0].start = -1 < 0`, so not every returned timing map is
monotone with non-negative start. -/
theorem timing_map_unvalidated_cex :
    (generateVoiceExplanation envBad (some sessVoiceEx) (some "s1") "f"
        voiceSt0).voiceExplanation.map VoiceExplanation.timings =
      some [timingBad] ∧
    timingBad.start < 0 := by
  constructor
  · rfl
  · show (-1 : ℚ) < 0
    norm_num

/-- Every entry of the character-count fallback ends exactly where the next
entry starts, whatever the running start time. -/
theorem fallbackTimings_chain (ss : List String) :
    ∀ t : ℚ, List.Chain' (fun a b => a.endT = b.start) (fallbackTimings ss t) := by
  induction ss with
  | nil => intro t; simp [fallbackTimings]
  | cons s rest ih =>
    intro t
    cases rest with
    | nil => exact List.chain'_singleton _
    | cons s' rest' =>
      simp only [fallbackTimings]
      refine List.chain'_cons.mpr ⟨rfl, ?_⟩
      simpa [fallbackTimings] using ih (t + (s.length : ℚ) * (5 / 100))

/-- C9 amended: the deterministic character-count fallback produces a
timing map whose first entry starts at exactly 0 and where each entry's end
exactly equals the next entry's start; the fallback is what
`generateVoiceExplanation` uses whenever the backend supplies no timing
data.  (Backend-supplied timing maps are passed through unvalidated, per
the counterexample.) -/
theorem fallback_timings_exact :
    (∀ ss : List String,
      List.Chain' (fun a b => a.endT = b.start) (fallbackTimings ss 0)) ∧
    (∀ (ss : List String) (x : Timing),
      (fallbackTimings ss 0).head? = some x → x.start = 0) ∧
    (∀ (resp : BackendResp) (ss : List String), resp.tts_timings = [] →
      resp.timings = [] → selectTimings resp ss = fallbackTimings ss 0) := by
  refine ⟨fun ss => fallbackTimings_chain ss 0, ?_, ?_⟩
  · intro ss x h
    cases ss with
    | nil => exact absurd h (by simp [fallbackTimings])
    | cons s rest =>
      simp only [fallbackTimings, List.head?_cons, Option.some.injEq] at h
      rw [← h]
  · intro resp ss h1 h2
    simp [selectTimings, h1, h2]

/-- Witness for the amended C9 on a one-sentence text. -/
theorem fallback_timings_exact_witness :
    (Timing.mk 0 (0 + (("Hi.".length : Nat) : ℚ) * (5 / 100)) "Hi.").start = 0 ∧
    selectTimings respNoTimings ["Hi."] = fallbackTimings ["Hi."] 0 :=
  ⟨fallback_timings_exact.2.1 ["Hi."] _ rfl,
   fallback_timings_exact.2.2 respNoTimings ["Hi."] rfl rfl⟩

/-- When the active session changed during generation, `applyResponse`
neither displays the result nor populates the cache. -/
theorem applyResponse_stale (env : VoiceEnv) (sid : String) (nowId : Option String)
    (key text : String) (resp : BackendResp) (st : VoiceState)
    (hnow : nowId ≠ some sid) :
    (applyResponse env sid nowId key text resp st).voiceExplanation =
      st.voiceExplanation ∧
    (applyResponse env sid nowId key text resp st).cachedExplanations =
      st.cachedExplanations := by
  by_cases herr : strFalsy resp.error = true
  · by_cases haud : strFalsy resp.audio_url = true
    · have hred : applyResponse env sid nowId key text resp st =
          { st with errorMsg := some "No audio URL returned from API" } := by
        unfold applyResponse
        rw [if_neg (not_not_intro herr), if_pos haud]
      rw [hred]
      exact ⟨rfl, rfl⟩
    · have hred : applyResponse env sid nowId key text resp st = st := by
        unfold applyResponse
        rw [if_neg (not_not_intro herr), if_neg haud]
        dsimp only
        rw [if_neg hnow]
      rw [hred]
      exact ⟨rfl, rfl⟩
  · have hred : applyResponse env sid nowId key text resp st =
        { st with errorMsg := some ("API Error: " ++ (resp.error.getD "")) } := by
      unfold applyResponse
      rw [if_pos herr]
    rw [hred]
    exact ⟨rfl, rfl⟩

/-- If `applyResponse` ends up displaying a voice explanation (starting from
a state displaying none), the error banner is untouched and the cache now
maps the key to exactly that explanation. -/
theorem applyResponse_success (env : VoiceEnv) (sid : String) (nowId : Option String)
    (key text : String) (resp : BackendResp) (st : VoiceState) (ve : VoiceExplanation)
    (hv : st.voiceExplanation = none) (hk : key ≠ "")
    (h : (applyResponse env sid nowId key text resp st).voiceExplanation = some ve) :
    (applyResponse env sid nowId key text resp st).errorMsg = st.errorMsg ∧
    lookupCache (applyResponse env sid nowId key text resp st).cachedExplanations key =
      some ve := by
  by_cases herr : strFalsy resp.error = true
  · by_cases haud : strFalsy resp.audio_url = true
    · have hred : applyResponse env sid nowId key text resp st =
          { st with errorMsg := some "No audio URL returned from API" } := by
        unfold applyResponse
        rw [if_neg (not_not_intro herr), if_pos haud]
      rw [hred] at h
      rw [show ({ st with errorMsg := some "No audio URL returned from API"
        } : VoiceState).voiceExplanation = st.voiceExplanation from rfl, hv] at h
      exact absurd h (by simp)
    · by_cases hnow : nowId = some sid
      · by_cases hkey : key = ""
        · exact absurd hkey hk
        · have hred : applyResponse env sid nowId key text resp st =
              { st with
                  voiceExplanation := some
                    { text := text
                      timings := selectTimings resp (sentencesOf text)
                      audioUrl := env.convert (resp.audio_url.getD "") }
                  cachedExplanations :=
                    (key,
                      { text := text
                        timings := selectTimings resp (sentencesOf text)
                        audioUrl := env.convert (resp.audio_url.getD "") }) ::
                      st.cachedExplanations } := by
            unfold applyResponse
            rw [if_neg (not_not_intro herr), if_neg haud]
            dsimp only
            rw [if_pos hnow, if_neg hkey]
          rw [hred] at h ⊢
          rw [show ({ st with
              voiceExplanation := some
                { text := text
                  timings := selectTimings resp (sentencesOf text)
                  audioUrl := env.convert (resp.audio_url.getD "") }
              cachedExplanations :=
                (key,
                  { text := text
                    timings := selectTimings resp (sentencesOf text)
                    audioUrl := env.convert (resp.audio_url.getD "") }) ::
                  st.cachedExplanations } : VoiceState).voiceExplanation =
            some
              { text := text
                timings := selectTimings resp (sentencesOf text)
                audioUrl := env.convert (resp.audio_url.getD "") } from rfl] at h
          rw [Option.some.injEq] at h
          subst h
          exact ⟨rfl, by simp [lookupCache]⟩
      · have hred : applyResponse env sid nowId key text resp st = st := by
          unfold applyResponse
          rw [if_neg (not_not_intro herr), if_neg haud]
          dsimp only
          rw [if_neg hnow]
        rw [hred] at h
        rw [hv] at h
        exact absurd h (by simp)
  · have hred : applyResponse env sid nowId key text resp st =
        { st with errorMsg := some ("API Error: " ++ (resp.error.getD "")) } := by
      unfold applyResponse
      rw [if_pos herr]
    rw [hred] at h
    rw [show ({ st with errorMsg := some ("API Error: " ++ (resp.error.getD ""))
      } : VoiceState).voiceExplanation = st.voiceExplanation from rfl, hv] at h
    exact absurd h (by simp)

/-- `generateVoiceExplanation` on an empty session only sets the error
banner. -/
theorem generate_fail_empty (env : VoiceEnv) (sess : ChatSession)
    (nowId : Option String) (fresh : String) (st : VoiceState)
    (hlen : sess.messages.length = 0) :
    generateVoiceExplanation env (some sess) nowId fresh st =
      { st with errorMsg := some "No messages to explain" } := by
  unfold generateVoiceExplanation
  dsimp only
  rw [if_pos hlen]

/-- `generateVoiceExplanation` with no assistant message only sets the
error banner. -/
theorem generate_fail_noassist (env : VoiceEnv) (sess : ChatSession)
    (nowId : Option String) (fresh : String) (st : VoiceState)
    (hlen : ¬sess.messages.length = 0) (hla : lastAssistant sess = none) :
    generateVoiceExplanation env (some sess) nowId fresh st =
      { st with errorMsg := some "No assistant messages to explain" } := by
  unfold generateVoiceExplanation
  dsimp only
  rw [if_neg hlen, hla]

/-- `generateVoiceExplanation` with no detailed response on the last
assistant message only sets the error banner. -/
theorem generate_fail_nodetail (env : VoiceEnv) (sess : ChatSession)
    (nowId : Option String) (fresh : String) (st : VoiceState) (msg : ChatMsg)
    (hlen : ¬sess.messages.length = 0) (hla : lastAssistant sess = some msg)
    (hdet : strFalsy msg.detailed_response = true) :
    generateVoiceExplanation env (some sess) nowId fresh st =
      { st with errorMsg := some "Voice explanations are only available for detailed responses. Please toggle to detailed view first." } := by
  unfold generateVoiceExplanation
  dsimp only
  rw [if_neg hlen, hla]
  dsimp only
  rw [if_pos hdet]

/-- Reduction of `generateVoiceExplanation` past its input validation: with
a non-empty session whose last assistant message has a detailed response,
the call is the cache lookup followed by stored-audio retrieval or
synthesis. -/
theorem generate_reduce (env : VoiceEnv) (sess : ChatSession)
    (nowId : Option String) (fresh : String) (st : VoiceState) (msg : ChatMsg)
    (hlen : ¬sess.messages.length = 0) (hla : lastAssistant sess = some msg)
    (hdet : ¬strFalsy msg.detailed_response = true) :
    generateVoiceExplanation env (some sess) nowId fresh st =
      match (if jsOr msg.query_id msg.id = "" then none
             else lookupCache st.cachedExplanations (jsOr msg.query_id msg.id)) with
      | some cached => { st with errorMsg := none, voiceExplanation := some cached }
      | none =>
        match (match msg.query_id with
               | some qid => if qid = "" then none else env.storedAudio qid
               | none => none) with
        | some r =>
          if strFalsy r.audio_url = true then
            applyResponse env sess.id nowId (jsOr msg.query_id msg.id)
              (msg.detailed_response.getD "")
              (env.synth (msg.detailed_response.getD "")
                (jsOr msg.query_id (jsOr (some msg.id) fresh)))
              { st with errorMsg := none, synthCalls := st.synthCalls + 1 }
          else
            applyResponse env sess.id nowId (jsOr msg.query_id msg.id)
              (msg.detailed_response.getD "") r { st with errorMsg := none }
        | none =>
          applyResponse env sess.id nowId (jsOr msg.query_id msg.id)
            (msg.detailed_response.getD "")
            (env.synth (msg.detailed_response.getD "")
              (jsOr msg.query_id (jsOr (some msg.id) fresh)))
            { st with errorMsg := none, synthCalls := st.synthCalls + 1 } := by
  unfold generateVoiceExplanation
  dsimp only
  rw [if_neg hlen, hla]
  dsimp only
  rw [if_neg hdet]

/-- If `generateVoiceExplanation` ends up displaying an explanation
(starting from a state displaying none, with a usable cache key), then
the cache now maps the session's key to exactly that explanation, the
error banner is clear, and the session passed all input validation. -/
theorem generate_success_cache (env : VoiceEnv) (sess : ChatSession)
    (nowId : Option String) (fresh : String) (st : VoiceState) (ve : VoiceExplanation)
    (hv : st.voiceExplanation = none) (hk : voiceCacheKey sess ≠ "")
    (h : (generateVoiceExplanation env (some sess) nowId fresh st).voiceExplanation =
      some ve) :
    lookupCache (generateVoiceExplanation env (some sess) nowId fresh
        st).cachedExplanations (voiceCacheKey sess) = some ve ∧
    (generateVoiceExplanation env (some sess) nowId fresh st).errorMsg = none ∧
    ¬sess.messages.length = 0 ∧
    ∃ msg, lastAssistant sess = some msg ∧ ¬strFalsy msg.detailed_response = true := by
  by_cases hlen : sess.messages.length = 0
  · rw [generate_fail_empty env sess nowId fresh st hlen] at h
    rw [show ({ st with errorMsg := some "No messages to explain"
      } : VoiceState).voiceExplanation = st.voiceExplanation from rfl, hv] at h
    exact absurd h (by simp)
  · cases hla : lastAssistant sess with
    | none =>
      rw [generate_fail_noassist env sess nowId fresh st hlen hla] at h
      rw [show ({ st with errorMsg := some "No assistant messages to explain"
        } : VoiceState).voiceExplanation = st.voiceExplanation from rfl, hv] at h
      exact absurd h (by simp)
    | some msg =>
      by_cases hdet : strFalsy msg.detailed_response = true
      · rw [generate_fail_nodetail env sess nowId fresh st msg hlen hla hdet] at h
        rw [show ({ st with errorMsg := some "Voice explanations are only available for detailed responses. Please toggle to detailed view first."
          } : VoiceState).voiceExplanation = st.voiceExplanation from rfl, hv] at h
        exact absurd h (by simp)
      · have hkey : voiceCacheKey sess = jsOr msg.query_id msg.id := by
          unfold voiceCacheKey
          rw [hla]
        rw [generate_reduce env sess nowId fresh st msg hlen hla hdet] at h ⊢
        rw [hkey] at hk ⊢
        rw [if_neg hk] at h ⊢
        cases hcache : lookupCache st.cachedExplanations (jsOr msg.query_id msg.id) with
        | some cached =>
          rw [hcache] at h
          dsimp only at h ⊢
          rw [Option.some.injEq] at h
          subst h
          exact ⟨hcache, rfl, hlen, msg, rfl, hdet⟩
        | none =>
          rw [hcache] at h
          dsimp only at h ⊢
          cases hst : (match msg.query_id with
              | some qid => if qid = "" then none else env.storedAudio qid
              | none => none) with
          | some r =>
            rw [hst] at h
            dsimp only at h ⊢
            by_cases hra : strFalsy r.audio_url = true
            · rw [if_pos hra] at h ⊢
              obtain ⟨he, hl⟩ := applyResponse_success env sess.id nowId
                (jsOr msg.query_id msg.id) (msg.detailed_response.getD "")
                (env.synth (msg.detailed_response.getD "")
                  (jsOr msg.query_id (jsOr (some msg.id) fresh)))
                { st with errorMsg := none, synthCalls := st.synthCalls + 1 } ve hv hk h
              exact ⟨hl, he, hlen, msg, rfl, hdet⟩
            · rw [if_neg hra] at h ⊢
              obtain ⟨he, hl⟩ := applyResponse_success env sess.id nowId
                (jsOr msg.query_id msg.id) (msg.detailed_response.getD "") r
                { st with errorMsg := none } ve hv hk h
              exact ⟨hl, he, hlen, msg, rfl, hdet⟩
          | none =>
            rw [hst] at h
            dsimp only at h ⊢
            obtain ⟨he, hl⟩ := applyResponse_success env sess.id nowId
              (jsOr msg.query_id msg.id) (msg.detailed_response.getD "")
              (env.synth (msg.detailed_response.getD "")
                (jsOr msg.query_id (jsOr (some msg.id) fresh)))
              { st with errorMsg := none, synthCalls := st.synthCalls + 1 } ve hv hk h
            exact ⟨hl, he, hlen, msg, rfl, hdet⟩

/-- A cache hit: with the session validated and the key present in the
cache, the call just displays the cached explanation and clears the error
banner — no backend call at all. -/
theorem generate_cache_hit (env : VoiceEnv) (sess : ChatSession)
    (nowId : Option String) (fresh : String) (st : VoiceState) (msg : ChatMsg)
    (ve : VoiceExplanation)
    (hlen : ¬sess.messages.length = 0) (hla : lastAssistant sess = some msg)
    (hdet : ¬strFalsy msg.detailed_response = true)
    (hk : jsOr msg.query_id msg.id ≠ "")
    (hcache : lookupCache st.cachedExplanations (jsOr msg.query_id msg.id) = some ve) :
    generateVoiceExplanation env (some sess) nowId fresh st =
      { st with errorMsg := none, voiceExplanation := some ve } := by
  rw [generate_reduce env sess nowId fresh st msg hlen hla hdet]
  rw [if_neg hk, hcache]

/-- A state that already displays `ve` with a clear error banner is a fixed
point of "display `ve` and clear the banner". -/
theorem voiceState_eta (s : VoiceState) (ve : VoiceExplanation)
    (h1 : s.errorMsg = none) (h2 : s.voiceExplanation = some ve) :
    { s with errorMsg := none, voiceExplanation := some ve } = s := by
  cases s
  dsimp only at h1 h2
  rw [h1, h2]

/-- C5: requesting the voice artifact a second time for the same turn — the
session unchanged, the last assistant message (and hence its query id and
detailed text) the same — returns the identical state: the second call is
served from the cached explanation keyed by the turn's id, performs no
second synthesis (`synthCalls` unchanged), and yields the identical audio
reference.  `st.voiceExplanation = none` is the sidebar's own guard for
invoking generation; the turn must have a non-blank cache key (a query id
or message id). -/
theorem voice_request_idempotent (env : VoiceEnv) (sess : ChatSession)
    (st : VoiceState) (fresh fresh' : String) (ve : VoiceExplanation)
    (hv : st.voiceExplanation = none)
    (hk : voiceCacheKey sess ≠ "")
    (h1 : (generateVoiceExplanation env (some sess) (some sess.id) fresh
      st).voiceExplanation = some ve) :
    generateVoiceExplanation env (some sess) (some sess.id) fresh'
        (generateVoiceExplanation env (some sess) (some sess.id) fresh st) =
      generateVoiceExplanation env (some sess) (some sess.id) fresh st ∧
    (generateVoiceExplanation env (some sess) (some sess.id) fresh'
        (generateVoiceExplanation env (some sess) (some sess.id) fresh
          st)).synthCalls =
      (generateVoiceExplanation env (some sess) (some sess.id) fresh st).synthCalls ∧
    (generateVoiceExplanation env (some sess) (some sess.id) fresh'
        (generateVoiceExplanation env (some sess) (some sess.id) fresh
          st)).voiceExplanation = some ve := by
  obtain ⟨hcache, herr, hlen, msg, hla, hdet⟩ :=
    generate_success_cache env sess (some sess.id) fresh st ve hv hk h1
  have hkey : voiceCacheKey sess = jsOr msg.query_id msg.id := by
    unfold voiceCacheKey
    rw [hla]
  rw [hkey] at hk hcache
  have h2 := generate_cache_hit env sess (some sess.id) fresh'
    (generateVoiceExplanation env (some sess) (some sess.id) fresh st) msg ve
    hlen hla hdet hk hcache
  rw [h2, voiceState_eta _ ve herr h1]
  exact ⟨rfl, rfl, h1⟩

/-- Witness for C5: a concrete second request for the same turn is the
identity on the state produced by the first request. -/
theorem voice_request_idempotent_witness :
    generateVoiceExplanation envOk (some sessVoiceEx) (some "s1") "f2"
        (generateVoiceExplanation envOk (some sessVoiceEx) (some "s1") "f1" voiceSt0) =
      generateVoiceExplanation envOk (some sessVoiceEx) (some "s1") "f1" voiceSt0 :=
  (voice_request_idempotent envOk sessVoiceEx voiceSt0 "f1" "f2"
    { text := "Hello there. Second sentence."
      timings := [{ start := 0, endT := 1, text := "Hello there." }]
      audioUrl := "voice.mp3" }
    rfl (by decide) rfl).1

/-- C8 counterexample: the active session changes while the voice artifact
is being generated (the re-checked current session id is `"other"`, not the
session's `"s1"`).  The synthesis did complete (`synthCalls = 1`), the late
result is not applied — but, contrary to the claim, the completed
generation does not populate the cache either: the cache still has no entry
for the turn's key. -/
theorem stale_session_cache_cex :
    (generateVoiceExplanation envOk (some sessVoiceEx) (some "other") "f"
        voiceSt0).synthCalls = 1 ∧
    (generateVoiceExplanation envOk (some sessVoiceEx) (some "other") "f"
        voiceSt0).voiceExplanation = none ∧
    lookupCache (generateVoiceExplanation envOk (some sessVoiceEx) (some "other") "f"
        voiceSt0).cachedExplanations (voiceCacheKey sessVoiceEx) = none :=
  ⟨rfl, rfl, rfl⟩

/-- C8 amended: when the active session has changed by the time the awaited
result arrives (and the call was not served straight from the cache), the
late result is discarded entirely — it is neither applied to the stale
context nor written to the cache.  Only the session-unchanged path
populates the cache. -/
theorem stale_session_discards (env : VoiceEnv) (sess : ChatSession)
    (nowId : Option String) (fresh : String) (st : VoiceState)
    (hnow : nowId ≠ some sess.id)
    (hmiss : voiceCacheKey sess = "" ∨
      lookupCache st.cachedExplanations (voiceCacheKey sess) = none) :
    (generateVoiceExplanation env (some sess) nowId fresh st).voiceExplanation =
      st.voiceExplanation ∧
    (generateVoiceExplanation env (some sess) nowId fresh st).cachedExplanations =
      st.cachedExplanations := by
  by_cases hlen : sess.messages.length = 0
  · rw [generate_fail_empty env sess nowId fresh st hlen]
    exact ⟨rfl, rfl⟩
  · cases hla : lastAssistant sess with
    | none =>
      rw [generate_fail_noassist env sess nowId fresh st hlen hla]
      exact ⟨rfl, rfl⟩
    | some msg =>
      by_cases hdet : strFalsy msg.detailed_response = true
      · rw [generate_fail_nodetail env sess nowId fresh st msg hlen hla hdet]
        exact ⟨rfl, rfl⟩
      · have hkey : voiceCacheKey sess = jsOr msg.query_id msg.id := by
          unfold voiceCacheKey
          rw [hla]
        rw [hkey] at hmiss
        rw [generate_reduce env sess nowId fresh st msg hlen hla hdet]
        have hscrut : (if jsOr msg.query_id msg.id = "" then none
            else lookupCache st.cachedExplanations (jsOr msg.query_id msg.id)) =
            (none : Option VoiceExplanation) := by
          rcases hmiss with hm | hm
          · rw [if_pos hm]
          · by_cases hq : jsOr msg.query_id msg.id = ""
            · rw [if_pos hq]
            · rw [if_neg hq]
              exact hm
        rw [hscrut]
        dsimp only
        cases hst : (match msg.query_id with
            | some qid => if qid = "" then none else env.storedAudio qid
            | none => none) with
        | some r =>
          dsimp only
          by_cases hra : strFalsy r.audio_url = true
          · rw [if_pos hra]
            exact applyResponse_stale env sess.id nowId (jsOr msg.query_id msg.id)
              (msg.detailed_response.getD "")
              (env.synth (msg.detailed_response.getD "")
                (jsOr msg.query_id (jsOr (some msg.id) fresh)))
              { st with errorMsg := none, synthCalls := st.synthCalls + 1 } hnow
          · rw [if_neg hra]
            exact applyResponse_stale env sess.id nowId (jsOr msg.query_id msg.id)
              (msg.detailed_response.getD "") r
              { st with errorMsg := none } hnow
        | none =>
          dsimp only
          exact applyResponse_stale env sess.id nowId (jsOr msg.query_id msg.id)
            (msg.detailed_response.getD "")
            (env.synth (msg.detailed_response.getD "")
              (jsOr msg.query_id (jsOr (some msg.id) fresh)))
            { st with errorMsg := none, synthCalls := st.synthCalls + 1 } hnow

/-- Witness for the amended C8 at the concrete stale-session run. -/
theorem stale_session_discards_witness :
    (generateVoiceExplanation envOk (some sessVoiceEx) (some "other") "f"
        voiceSt0).voiceExplanation = voiceSt0.voiceExplanation ∧
    (generateVoiceExplanation envOk (some sessVoiceEx) (some "other") "f"
        voiceSt0).cachedExplanations = voiceSt0.cachedExplanations :=
  stale_session_discards envOk sessVoiceEx (some "other") "f" voiceSt0
    (by decide) (Or.inr rfl)
